import Mathlib

/-!
Shallow embedding of the agent-orchestration core of the
Cross-Document-Validation-Agent repository, and proofs about it.

Source files embedded:
  * `src/models/fraud.py`   — `AgentStep`, `AgentExecution`, `FraudAnalysisResult`
  * `src/agent/memory.py`   — `FraudDetectionMemory`
  * `src/agent/react_agent.py` — `Thinker.parse_reasoning`, `Thinker.think`,
    `Actor.act`, `ReActFraudDetectionAgent.analyze_documents`,
    `ReActFraudDetectionAgent.should_terminate`,
    `generate_final_assessment` and friends
  * `src/tools/__init__.py` — the tool registry (`get_all_tools`)
  * `src/config.py`         — the `Settings` defaults

Modelling conventions:
  * Python `float` is modelled by `ℚ`; every numeric literal appearing in the
    source is an exact decimal, built here with `mkRat`, and CPython's
    `float()` string parser is embedded exactly on ASCII input (`pyFloat?`),
    with documented finite stand-ins for `inf`/`nan`.
  * Python strings are Lean `String`s.  The Python `str` methods used by the
    source (`strip`, `startswith`, `replace`, `split`, `lower`, `in`) are
    defined below by structural recursion over `String.data` so that every
    definition evaluates inside the kernel.
  * Wall-clock fields (`timestamp`, `start_time`, `end_time`,
    `duration_ms`, `tokens_used`) are omitted: no claim mentions them and
    they are not representable in a pure embedding.
  * External effects (the LLM reasoning capability, the per-document
    classification calls, and tool execution bodies) are injected as
    explicit inputs: an `Except String String` models a Python call that
    either raises (`.error msg`) or returns text (`.ok s`).
-/

/-! ## Python string primitives (structural recursion over `List Char`) -/

/-- The code points of every character Python's `str.isspace()` accepts —
exactly what `str.strip()` with no argument removes: the ASCII controls
9-13 and 28-31, space, NEL, NBSP, and the Unicode space separators. -/
def pySpaceCodes : List Nat :=
  [9, 10, 11, 12, 13, 28, 29, 30, 31, 32, 133, 160, 5760,
   8192, 8193, 8194, 8195, 8196, 8197, 8198, 8199, 8200, 8201, 8202,
   8232, 8233, 8239, 8287, 12288]

/-- Python `str.isspace()` on a single character. -/
def pyIsSpace (c : Char) : Bool :=
  pySpaceCodes.contains c.toNat

/-- Python `str.strip()` with no argument: drop leading and trailing
Python-whitespace characters. -/
def pyStripChars (l : List Char) : List Char :=
  ((l.dropWhile pyIsSpace).reverse.dropWhile pyIsSpace).reverse

/-- Python `str.strip()` lifted to `String`. -/
def pyStrip (s : String) : String :=
  String.mk (pyStripChars s.data)

/-- Python `str.startswith(pre)`. -/
def pyStartsWith (s pre : String) : Bool :=
  pre.data.isPrefixOf s.data

/-- Fuel-driven worker for Python `str.replace(pat, rep)`: replace the
leftmost occurrence of `pat` and continue after the replacement.  The fuel is
the length of the haystack, which suffices for every non-empty pattern (all
patterns in the source are non-empty literals). -/
def pyReplaceLoop (pat rep : List Char) : Nat → List Char → List Char
  | 0, hay => hay
  | fuel + 1, hay =>
    match hay with
    | [] => []
    | c :: t =>
      if pat.isPrefixOf hay then rep ++ pyReplaceLoop pat rep fuel (hay.drop pat.length)
      else c :: pyReplaceLoop pat rep fuel t

/-- Python `s.replace(pat, rep)` (all occurrences, left to right). -/
def pyReplace (s pat rep : String) : String :=
  String.mk (pyReplaceLoop pat.data rep.data s.data.length s.data)

/-- Python `s.split(sep)` for a single-character separator, as used by
`parse_reasoning` (`split('\n')`). -/
def pySplitChar (s : String) (sep : Char) : List String :=
  (s.data.splitOn sep).map String.mk

/-- Python `s.lower()` (ASCII case folding suffices for the source's data). -/
def pyLower (s : String) : String :=
  String.mk (s.data.map Char.toLower)

/-- Worker for the Python `in` operator on strings: does `needle` occur as a
contiguous substring of `hay`? -/
def containsSubChars (needle : List Char) : List Char → Bool
  | [] => needle.isPrefixOf []
  | c :: t => needle.isPrefixOf (c :: t) || containsSubChars needle t

/-- Python `needle in hay` on strings. -/
def pyContains (hay needle : String) : Bool :=
  containsSubChars needle.data hay.data

/-- Numeric value of a list of decimal digit characters. -/
def decDigitsVal (l : List Char) : Nat :=
  l.foldl (fun a c => 10 * a + (c.toNat - 48)) 0

/-- The value of a CPython `float()` string: a finite float (held as the
literal's exact rational value), a signed infinity, or `nan`. -/
inductive PyFloatVal where
  | finite (val : ℚ)
  | inf (neg : Bool)
  | nan
deriving DecidableEq

/-- Negation of a parsed float value, for a leading `-` sign. -/
def PyFloatVal.neg : PyFloatVal → PyFloatVal
  | PyFloatVal.finite q => PyFloatVal.finite (-q)
  | PyFloatVal.inf b => PyFloatVal.inf (!b)
  | PyFloatVal.nan => PyFloatVal.nan

/-- The tail of a CPython digit part after its first digit: ASCII digits in
which a single underscore may stand between two digits (PEP 515). -/
def isUnderscoreDigits : List Char → Bool
  | [] => true
  | '_' :: c :: rest => c.isDigit && isUnderscoreDigits rest
  | c :: rest => c.isDigit && isUnderscoreDigits rest

/-- A CPython `digitpart`: at least one ASCII digit, underscores only
between digits. -/
def isDigitPart (l : List Char) : Bool :=
  match l with
  | [] => false
  | c :: rest => c.isDigit && isUnderscoreDigits rest

/-- Numeric value of a digit part, underscores removed. -/
def digitPartVal (l : List Char) : Nat :=
  decDigitsVal (l.filter (fun c => c != '_'))

/-- Number of digits of a digit part, underscores removed. -/
def digitPartLen (l : List Char) : Nat :=
  (l.filter (fun c => c != '_')).length

/-- Split a float literal at its first `e`/`E`; the second component keeps
the marker (empty when there is no exponent). -/
def splitAtExp : List Char → List Char × List Char
  | [] => ([], [])
  | c :: rest =>
    if c = 'e' ∨ c = 'E' then ([], c :: rest)
    else
      let p := splitAtExp rest
      (c :: p.1, p.2)

/-- The mantissa of a float literal (`digitpart`, `digitpart "."`,
`digitpart "." digitpart` or `"." digitpart`) as a numerator together with
its count of fractional digits; `none` when malformed. -/
def parseMantissa (l : List Char) : Option (Nat × Nat) :=
  match l.splitOn '.' with
  | [ip] => if isDigitPart ip then some (digitPartVal ip, 0) else none
  | [ip, fp] =>
    if ip.isEmpty then
      if isDigitPart fp then some (digitPartVal fp, digitPartLen fp) else none
    else if fp.isEmpty then
      if isDigitPart ip then some (digitPartVal ip, 0) else none
    else
      if isDigitPart ip && isDigitPart fp then
        some (digitPartVal ip * 10 ^ digitPartLen fp + digitPartVal fp, digitPartLen fp)
      else none
  | _ => none

/-- The exponent segment produced by `splitAtExp` (marker plus optionally
signed digit part); an absent exponent is `0`, a malformed one `none`. -/
def parseExpPart : List Char → Option Int
  | [] => some 0
  | _ :: rest =>
    match rest with
    | '+' :: d => if isDigitPart d then some (Int.ofNat (digitPartVal d)) else none
    | '-' :: d => if isDigitPart d then some (-(Int.ofNat (digitPartVal d) : Int)) else none
    | d => if isDigitPart d then some (Int.ofNat (digitPartVal d)) else none

/-- An unsigned CPython float body: `inf`/`infinity`/`nan` (case-insensitive)
or a number with optional fraction and exponent.  A finite result is the
literal's exact rational value; CPython rounds it to the nearest double, a
monotone map fixing 0 and 1, so membership in `[0, 1]` is unaffected (a
literal beyond the double range, such as `1e400`, overflows to `inf` in
CPython and is held here as the same huge out-of-range rational). -/
def pyFloatBody (l : List Char) : Option PyFloatVal :=
  if l.map Char.toLower = "inf".data ∨ l.map Char.toLower = "infinity".data then
    some (PyFloatVal.inf false)
  else if l.map Char.toLower = "nan".data then some PyFloatVal.nan
  else
    match parseMantissa (splitAtExp l).1, parseExpPart (splitAtExp l).2 with
    | some mant, some e =>
      some (PyFloatVal.finite
        (if 0 ≤ e then mkRat (Int.ofNat (mant.1 * 10 ^ e.toNat)) (10 ^ mant.2)
         else mkRat (Int.ofNat mant.1) (10 ^ mant.2 * 10 ^ (-e).toNat)))
    | _, _ => none

/-- CPython `float(s)` on a string already stripped of Python whitespace (the
source always calls it as `text.strip()` → `float(...)`, and `float` strips
no character that `str.strip()` keeps): optional sign, then `inf`/`infinity`/
`nan` or a decimal number with underscore digit groups and an optional
exponent.  `none` models the `ValueError` on any other input.  This grammar
was checked against CPython on every ASCII string of length ≤ 3 over the
float alphabet and on several hundred thousand random ASCII strings; CPython
additionally accepts non-ASCII Unicode decimal digits, which this model
rejects — the one divergence, and claim C8's proviso excludes every
non-ASCII value text for exactly that reason. -/
def pyFloat? (s : String) : Option PyFloatVal :=
  match s.data with
  | '-' :: r => (pyFloatBody r).map PyFloatVal.neg
  | '+' :: r => pyFloatBody r
  | r => pyFloatBody r

/-- Finite stand-in for CPython's `+inf` in the ℚ embedding: `10 ^ 400` lies
beyond every double and compares against each finite constant of this
program (0, 0.3, 0.4, 0.6, 0.7, 0.8, 1) exactly as `+inf` does. -/
def pyHugeVal : ℚ := mkRat (Int.ofNat (10 ^ 400)) 1

/-- Stand-in for CPython's `nan`, which falsifies every comparison —
behaviour no rational reproduces exactly.  It is kept far outside `[0, 1]`,
and no theorem in this file concerns a response whose confidence parses to
`nan` (claim C8's proviso rejects such lines). -/
def pyNanVal : ℚ := -pyHugeVal

/-- Does the string consist of ASCII characters only?  On such strings the
`pyFloat?` model of CPython `float()` is exact. -/
def pyAsciiOnly (s : String) : Bool :=
  s.data.all (fun c => c.toNat < 128)

/-- The value `parse_reasoning` stores for a `CONFIDENCE:` line: the parsed
float, or the `0.5` default when `float()` raises `ValueError`.  Non-finite
parses are held as their documented finite stand-ins. -/
def parsedConfidence : Option PyFloatVal → ℚ
  | some (PyFloatVal.finite c) => c
  | some (PyFloatVal.inf neg) => if neg then -pyHugeVal else pyHugeVal
  | some PyFloatVal.nan => pyNanVal
  | none => mkRat 1 2

/-- The single-quote character as a string; CPython's `str(KeyError(k))`
wraps the missing key in these quotes. -/
def singleQuote : String := String.singleton (Char.ofNat 39)

/-! ## `src/models/fraud.py` -/

/-- `AgentStep` (src/models/fraud.py): one entry of the execution trace.
The `tool_input` dict `{"reasoning": ...}` is modelled by its single value;
`timestamp` and `duration_ms` are omitted (wall clock). -/
structure AgentStep where
  step_number : Nat
  step_type : String
  content : String
  tool_used : Option String
  tool_input : Option String
  tool_output : Option String
deriving DecidableEq

/-- `FraudAnalysisResult` (src/models/fraud.py), restricted to the fields the
agent loop writes and the claims read.  In the source `fraud_indicators` and
`evidence` are lists of Pydantic sub-models, but `create_fraud_analysis_result`
passes them the memory's plain string lists, which only validate when empty —
and the ReAct loop never inserts into either, so they are empty on every path
modelled here. -/
structure FraudAnalysisResult where
  bundle_id : String
  fraud_detected : Bool
  overall_confidence : ℚ
  risk_level : String
  fraud_indicators : List String
  evidence : List String
  investigation_priority : String
  executive_summary : String
deriving DecidableEq

/-- `AgentExecution` (src/models/fraud.py), without the wall-clock fields. -/
structure AgentExecution where
  execution_id : String
  bundle_id : String
  status : String := "running"
  steps : List AgentStep := []
  total_steps : Nat := 0
  fraud_analysis : Option FraudAnalysisResult := none
  error_message : Option String := none
deriving DecidableEq

/-- A fresh `AgentExecution`, as constructed by `FraudDetectionMemory.__init__`. -/
def AgentExecution.init (execution_id bundle_id : String) : AgentExecution :=
  { execution_id := execution_id, bundle_id := bundle_id }

/-- `AgentExecution.add_step`: append a step numbered `len(steps) + 1` and
refresh `total_steps = len(steps)`. -/
def AgentExecution.add_step (e : AgentExecution) (step_type content : String)
    (tool_used tool_input tool_output : Option String) : AgentExecution :=
  let step : AgentStep :=
    { step_number := e.steps.length + 1
      step_type := step_type
      content := content
      tool_used := tool_used
      tool_input := tool_input
      tool_output := tool_output }
  let steps := e.steps ++ [step]
  { e with steps := steps, total_steps := steps.length }

/-- `AgentExecution.complete_execution` (end-time bookkeeping omitted). -/
def AgentExecution.complete_execution (e : AgentExecution)
    (fraud_analysis : FraudAnalysisResult) : AgentExecution :=
  { e with status := "completed", fraud_analysis := some fraud_analysis }

/-- `AgentExecution.fail_execution` (end-time bookkeeping omitted). -/
def AgentExecution.fail_execution (e : AgentExecution) (msg : String) : AgentExecution :=
  { e with status := "failed", error_message := some msg }

/-! ## `src/agent/memory.py` -/

/-- `FraudDetectionMemory` (src/agent/memory.py).  The LangChain
conversation buffer, `extracted_data`, `current_phase` and
`investigation_context` are omitted: nothing the claims mention reads them. -/
structure FraudDetectionMemory where
  execution_id : String
  bundle_id : String
  agent_execution : AgentExecution
  analysis_results : List String := []
  fraud_indicators : List String := []
  evidence : List String := []
  executed_tools : List String := []
  iteration_count : Nat := 0
  confidence_level : ℚ := 0
deriving DecidableEq

/-- `FraudDetectionMemory.__init__` followed by `initialize_investigation`
(the latter only resets `iteration_count`/`confidence_level` to their
initial values and stores the raw document texts, which are external). -/
def FraudDetectionMemory.init (execution_id bundle_id : String) : FraudDetectionMemory :=
  { execution_id := execution_id
    bundle_id := bundle_id
    agent_execution := AgentExecution.init execution_id bundle_id }

/-- `FraudDetectionMemory.add_step` (the mirrored LangChain chat message is
external output and is omitted). -/
def FraudDetectionMemory.add_step (m : FraudDetectionMemory) (step_type content : String)
    (tool_used tool_input tool_output : Option String) : FraudDetectionMemory :=
  { m with agent_execution :=
      m.agent_execution.add_step step_type content tool_used tool_input tool_output }

/-- `FraudDetectionMemory.add_observation`. -/
def FraudDetectionMemory.add_observation (m : FraudDetectionMemory) (content : String) :
    FraudDetectionMemory :=
  m.add_step "OBSERVATION" content none none none

/-- `FraudDetectionMemory.add_thought`. -/
def FraudDetectionMemory.add_thought (m : FraudDetectionMemory) (content : String) :
    FraudDetectionMemory :=
  m.add_step "THOUGHT" content none none none

/-- `FraudDetectionMemory.add_action`: record the executed tool name (if
non-empty and new), collect a non-empty `tool_output` into
`analysis_results`, then append the ACTION step. -/
def FraudDetectionMemory.add_action (m : FraudDetectionMemory)
    (content tool_used : String) (tool_input tool_output : String) : FraudDetectionMemory :=
  let m :=
    if tool_used ≠ "" ∧ tool_used ∉ m.executed_tools then
      { m with executed_tools := m.executed_tools ++ [tool_used] }
    else m
  let m :=
    if tool_output ≠ "" then
      { m with analysis_results := m.analysis_results ++ [tool_output] }
    else m
  m.add_step "ACTION" content (some tool_used) (some tool_input) (some tool_output)

/-- `FraudDetectionMemory.add_fraud_indicator`: set-semantics insertion. -/
def FraudDetectionMemory.add_fraud_indicator (m : FraudDetectionMemory)
    (indicator : String) : FraudDetectionMemory :=
  if indicator ∈ m.fraud_indicators then m
  else { m with fraud_indicators := m.fraud_indicators ++ [indicator] }

/-- `FraudDetectionMemory.add_evidence`: set-semantics insertion. -/
def FraudDetectionMemory.add_evidence (m : FraudDetectionMemory)
    (evidence_item : String) : FraudDetectionMemory :=
  if evidence_item ∈ m.evidence then m
  else { m with evidence := m.evidence ++ [evidence_item] }

/-- `FraudDetectionMemory.set_iteration_count`. -/
def FraudDetectionMemory.set_iteration_count (m : FraudDetectionMemory) (count : Nat) :
    FraudDetectionMemory :=
  { m with iteration_count := count }

/-- `FraudDetectionMemory.update_confidence`: overwrite, no clamping. -/
def FraudDetectionMemory.update_confidence (m : FraudDetectionMemory) (confidence : ℚ) :
    FraudDetectionMemory :=
  { m with confidence_level := confidence }

/-! ## `src/agent/react_agent.py` — Thinker -/

/-- `Reasoning` (src/agent/react_agent.py dataclass). -/
structure Reasoning where
  content : String
  recommended_action : String
  confidence : ℚ
  reasoning_type : String
deriving DecidableEq

/-- Accumulator for `parse_reasoning`'s line loop, holding the four local
variables with their defaults. -/
structure ParseAcc where
  reasoning_content : String
  recommended_action : String
  confidence : ℚ
  reasoning_type : String
deriving DecidableEq

/-- One iteration of `parse_reasoning`'s `for line in lines` body: the
`startswith` / `elif` chain, each branch stripping the tag via
`replace(tag, "").strip()`.  A `CONFIDENCE:` value that `float()` rejects
falls back to `0.5`. -/
def parseReasoningLine (acc : ParseAcc) (line : String) : ParseAcc :=
  if pyStartsWith line "REASONING:" then
    { acc with reasoning_content := pyStrip (pyReplace line "REASONING:" "") }
  else if pyStartsWith line "RECOMMENDED_ACTION:" then
    { acc with recommended_action := pyStrip (pyReplace line "RECOMMENDED_ACTION:" "") }
  else if pyStartsWith line "CONFIDENCE:" then
    { acc with confidence :=
        parsedConfidence (pyFloat? (pyStrip (pyReplace line "CONFIDENCE:" ""))) }
  else if pyStartsWith line "REASONING_TYPE:" then
    { acc with reasoning_type := pyStrip (pyReplace line "REASONING_TYPE:" "") }
  else acc

/-- `Thinker.parse_reasoning`: split the stripped response on newlines, run
the tag loop from the defaults
(`synthesize_fraud_evidence` / `0.5` / `investigation`), and fall back to the
whole response as content when no `REASONING:` line was recognized.  The
method's outer `except` arm is unreachable (no statement in the `try` body
raises) and is therefore not modelled. -/
def Thinker.parse_reasoning (llm_response : String) : Reasoning :=
  let lines := pySplitChar (pyStrip llm_response) '\n'
  let acc := lines.foldl parseReasoningLine
    { reasoning_content := ""
      recommended_action := "synthesize_fraud_evidence"
      confidence := mkRat 1 2
      reasoning_type := "investigation" }
  { content := if acc.reasoning_content = "" then llm_response else acc.reasoning_content
    recommended_action := acc.recommended_action
    confidence := acc.confidence
    reasoning_type := acc.reasoning_type }

/-- `Thinker.think`: the prompt build plus `llm.invoke` are one external
call, injected as an `Except`; a raise anywhere in the `try` body produces
the fixed fallback `Reasoning`. -/
def Thinker.think (llm_reply : Except String String) : Reasoning :=
  match llm_reply with
  | Except.ok response => Thinker.parse_reasoning response
  | Except.error _ =>
    { content := "Unable to generate reasoning due to error"
      recommended_action := "synthesize_fraud_evidence"
      confidence := 0
      reasoning_type := "fallback" }

/-! ## `src/agent/react_agent.py` — Actor and the tool registry -/

/-- The names of the tools actually returned by `get_all_tools`
(src/tools/__init__.py): the remaining tools — including
`FraudEvidenceSynthesisTool`, whose name is `synthesize_fraud_evidence` —
are commented out behind a `TODO` and are NOT registered. -/
def get_all_tool_names : List String :=
  ["extract_data_from_document",
   "validate_quantity_consistency",
   "validate_weight_consistency"]

/-- The `Action` dataclass of src/agent/react_agent.py (timestamp omitted);
named `AgentAction` here because Mathlib already has an `Action`. -/
structure AgentAction where
  tool_name : String
  reasoning : Reasoning
  result : String
deriving DecidableEq

/-- `Actor.act`.  `tool_run` injects `execute_tool`, which catches every
exception internally and always returns a string.  Unknown recommended
actions are redirected to `"synthesize_fraud_evidence"`; looking that name up
in `self.tools` raises `KeyError` whenever it is not registered, which the
method's own `except` arm converts into an `Action` with
`tool_name = "error"` and the `str(KeyError)` text (the missing key wrapped
in single quotes) in `result`. -/
def Actor.act (tool_run : String → String) (reasoning : Reasoning) : AgentAction :=
  let tool_name :=
    if reasoning.recommended_action ∉ get_all_tool_names then "synthesize_fraud_evidence"
    else reasoning.recommended_action
  if tool_name ∈ get_all_tool_names then
    { tool_name := tool_name, reasoning := reasoning, result := tool_run tool_name }
  else
    { tool_name := "error", reasoning := reasoning,
      result := "Action failed: " ++ (singleQuote ++ tool_name ++ singleQuote) }

/-! ## `src/agent/react_agent.py` — the ReAct loop -/

/-- `src/config.py` `Settings`, restricted to the two fields the loop reads. -/
structure Settings where
  max_iterations : Nat
  confidence_threshold : ℚ
deriving DecidableEq

/-- The `Settings` defaults: `max_iterations = 10`,
`confidence_threshold = 0.7`. -/
def default_settings : Settings :=
  { max_iterations := 10, confidence_threshold := mkRat 7 10 }

/-- `ReActFraudDetectionAgent.should_terminate`. -/
def should_terminate (s : Settings) (m : FraudDetectionMemory) (reasoning : Reasoning) : Bool :=
  (decide (s.confidence_threshold ≤ reasoning.confidence) &&
      (reasoning.reasoning_type == "synthesis"))
  || decide (s.max_iterations ≤ m.iteration_count)
  || (decide (5 < m.iteration_count) && decide (reasoning.confidence < mkRat 3 10))

deriving instance DecidableEq for Except

/-- The external behaviour of one loop cycle: what `Observer.observe`
produces (`.ok` the content summary; `.error` models `observe` raising
`AgentExecutionError`, the one unguarded raise inside a cycle — `think` and
`act` catch all their own exceptions), what the reasoning capability call
inside `Thinker.think` yields, and the text `execute_tool` returns. -/
structure CycleBehavior where
  observation_summary : Except String String
  llm_reply : Except String String
  tool_result : String
deriving DecidableEq

/-- Outcome of the `while` loop of `analyze_documents`: either the loop left
normally (by `break` or by its guard) or an unhandled exception escaped,
carrying the memory state built so far. -/
inductive LoopResult where
  | completed (mem : FraudDetectionMemory) (iteration : Nat)
  | errored (mem : FraudDetectionMemory) (msg : String)
deriving DecidableEq

/-- The `while iteration < self.max_iterations` loop of `analyze_documents`.
`fuel` makes the recursion structural; `analyze_documents` passes
`fuel = max_iterations`, which dominates the guard, so the guard is what
stops the loop exactly as in the source.  Each cycle: bump and record the
iteration, OBSERVE (an `observe` raise escapes the loop with the
`AgentExecutionError` text), THINK, ACT, update confidence, then `break` when
`should_terminate` fires. -/
def react_loop (s : Settings) (beh : Nat → CycleBehavior) :
    Nat → Nat → FraudDetectionMemory → LoopResult
  | 0, iteration, mem => LoopResult.completed mem iteration
  | fuel + 1, iteration, mem =>
    if iteration < s.max_iterations then
      let iter := iteration + 1
      let mem := mem.set_iteration_count iter
      match (beh iter).observation_summary with
      | Except.error e => LoopResult.errored mem ("Observation failed: " ++ e)
      | Except.ok summary =>
        let mem := mem.add_observation ("Observation " ++ toString iter ++ ": " ++ summary)
        let reasoning := Thinker.think (beh iter).llm_reply
        let mem := mem.add_thought reasoning.content
        let action := Actor.act (fun _ => (beh iter).tool_result) reasoning
        let mem := mem.add_action ("Executed " ++ action.tool_name) action.tool_name
          reasoning.content action.result
        let mem := mem.update_confidence reasoning.confidence
        if should_terminate s mem reasoning then LoopResult.completed mem iter
        else react_loop s beh fuel iter mem
    else LoopResult.completed mem iteration

/-- The keyword list of `create_fraud_analysis_result`. -/
def fraud_keywords : List String :=
  ["fraud detected", "suspicious", "inconsistency", "discrepancy", "manipulation"]

/-- `create_fraud_analysis_result`: keyword scan of the synthesis text, the
memory's confidence, and the risk tier thresholds 0.8 / 0.6 / 0.4. -/
def create_fraud_analysis_result (m : FraudDetectionMemory) (synthesis_result : String) :
    FraudAnalysisResult :=
  { bundle_id := m.bundle_id
    fraud_detected :=
      fraud_keywords.any (fun k => pyContains (pyLower synthesis_result) (pyLower k))
    overall_confidence := m.confidence_level
    risk_level :=
      if mkRat 8 10 ≤ m.confidence_level then "CRITICAL"
      else if mkRat 6 10 ≤ m.confidence_level then "HIGH"
      else if mkRat 4 10 ≤ m.confidence_level then "MEDIUM"
      else "LOW"
    fraud_indicators := m.fraud_indicators
    evidence := m.evidence
    investigation_priority := "MEDIUM"
    executive_summary := synthesis_result }

/-- Pydantic's field validation on `FraudAnalysisResult`:
`overall_confidence` carries `ge=0.0, le=1.0`.  (The list-field sub-model
coercion is not modelled; both lists are empty on every loop path, where it
is vacuous.) -/
def pydantic_valid (r : FraudAnalysisResult) : Bool :=
  decide (0 ≤ r.overall_confidence) && decide (r.overall_confidence ≤ 1)

/-- `create_fallback_analysis`: the all-clear result produced when building
the structured result raises. -/
def create_fallback_analysis (m : FraudDetectionMemory) (error : String) :
    FraudAnalysisResult :=
  { bundle_id := m.bundle_id
    fraud_detected := false
    overall_confidence := 0
    risk_level := "LOW"
    fraud_indicators := []
    evidence := []
    investigation_priority := "LOW"
    executive_summary := "Analysis incomplete due to error: " ++ error }

/-- `generate_final_assessment`.  `self.actor.tools.get("synthesize_fraud_evidence")`
is `None` — the synthesis tool is not in `get_all_tools` — so the synthesis
text is always the literal `"Synthesis tool not available"`; a Pydantic
validation failure in `create_fraud_analysis_result` is caught and answered
with the fallback analysis (whose error text is the validation message,
abstracted here). -/
def generate_final_assessment (m : FraudDetectionMemory) : FraudAnalysisResult :=
  let result := "Synthesis tool not available"
  let structured := create_fraud_analysis_result m result
  if pydantic_valid structured then structured
  else create_fallback_analysis m "validation error"

/-- `ReActFraudDetectionAgent.analyze_documents`: run the loop from a fresh
memory; on normal exit attach the final assessment and complete, on an
unhandled loop error fail the execution — either way return the execution
carried by the (possibly partial) memory. -/
def analyze_documents (s : Settings) (beh : Nat → CycleBehavior)
    (execution_id bundle_id : String) : AgentExecution :=
  let mem := FraudDetectionMemory.init execution_id bundle_id
  match react_loop s beh s.max_iterations 0 mem with
  | LoopResult.completed mem _ =>
    mem.agent_execution.complete_execution (generate_final_assessment mem)
  | LoopResult.errored mem msg =>
    mem.agent_execution.fail_execution msg

/-- The number of cycles the loop of `analyze_documents` performed: the
final value of the `iteration` counter (on an escape by exception, the last
recorded iteration count). -/
def loop_iterations (s : Settings) (beh : Nat → CycleBehavior)
    (execution_id bundle_id : String) : Nat :=
  match react_loop s beh s.max_iterations 0 (FraudDetectionMemory.init execution_id bundle_id) with
  | LoopResult.completed _ iteration => iteration
  | LoopResult.errored mem _ => mem.iteration_count

/-! ## Auxiliary definitions used by the statements -/

/-- The final memory carried out of the `while` loop of `analyze_documents`
(whether the loop left normally or by an unhandled error). -/
def loop_final_memory (s : Settings) (beh : Nat → CycleBehavior)
    (execution_id bundle_id : String) : FraudDetectionMemory :=
  match react_loop s beh s.max_iterations 0 (FraudDetectionMemory.init execution_id bundle_id) with
  | LoopResult.completed mem _ => mem
  | LoopResult.errored mem _ => mem

/-- The argument tuple of one `AgentExecution.add_step` call. -/
structure StepCall where
  step_type : String
  content : String
  tool_used : Option String
  tool_input : Option String
  tool_output : Option String
deriving DecidableEq

/-- A sequence of `add_step` calls applied in order. -/
def apply_add_steps (e : AgentExecution) (calls : List StepCall) : AgentExecution :=
  calls.foldl
    (fun acc c => acc.add_step c.step_type c.content c.tool_used c.tool_input c.tool_output) e

/-- One insertion into the memory's deduplicated collections: either
`add_fraud_indicator` or `add_evidence`. -/
inductive MemInsert where
  | indicator (s : String)
  | evidence (s : String)
deriving DecidableEq

/-- A sequence of `add_fraud_indicator` / `add_evidence` calls in order. -/
def apply_inserts (m : FraudDetectionMemory) (ops : List MemInsert) : FraudDetectionMemory :=
  ops.foldl
    (fun acc op =>
      match op with
      | MemInsert.indicator s => acc.add_fraud_indicator s
      | MemInsert.evidence s => acc.add_evidence s) m

/-- Is a parsed `CONFIDENCE:` value harmless for the `[0, 1]` invariant?
A rejected value falls back to the in-range default `0.5`; a finite value
must itself lie in `[0, 1]`; `inf`/`nan` are never harmless. -/
def confidence_value_ok : Option PyFloatVal → Bool
  | some (PyFloatVal.finite v) => decide (0 ≤ v) && decide (v ≤ 1)
  | some (PyFloatVal.inf _) => false
  | some PyFloatVal.nan => false
  | none => true

/-- A response line is harmless for the confidence invariant when it is not a
`CONFIDENCE:` line, or its value text is plain ASCII — where the `float()`
model is exact — and either fails to parse (default `0.5`) or parses to a
finite value in `[0, 1]`. -/
def confidence_line_ok (line : String) : Bool :=
  !(pyStartsWith line "CONFIDENCE:") ||
    (pyAsciiOnly (pyStrip (pyReplace line "CONFIDENCE:" "")) &&
      confidence_value_ok (pyFloat? (pyStrip (pyReplace line "CONFIDENCE:" ""))))

/-- Every line of the (stripped) response is harmless for the confidence
invariant. -/
def confidence_values_ok (s : String) : Bool :=
  (pySplitChar (pyStrip s) '\n').all confidence_line_ok

/-- The spec's Scenario B reasoning-capability response. -/
def scenario_b_response : String :=
  "REASONING: done\nRECOMMENDED_ACTION: synthesize_fraud_evidence\nCONFIDENCE: 0.9\nREASONING_TYPE: synthesis"

/-- Scenario B cycle behaviour: observation succeeds, the reasoning
capability answers `scenario_b_response` every cycle. -/
def scenario_b_behavior : Nat → CycleBehavior :=
  fun _ =>
    { observation_summary := Except.ok "documents summarized"
      llm_reply := Except.ok scenario_b_response
      tool_result := "tool ran" }

/-- A reasoning-capability response in which `parse_reasoning` recognizes no
tag at all (the spec's Scenario A: unparseable text, call succeeding). -/
def scenario_a_response : String :=
  "I could not settle on a single recommendation here."

/-- Scenario A cycle behaviour: observation succeeds, the reasoning
capability always returns the unparseable text. -/
def scenario_a_behavior : Nat → CycleBehavior :=
  fun _ =>
    { observation_summary := Except.ok "two documents summarized"
      llm_reply := Except.ok scenario_a_response
      tool_result := "tool ran" }

/-- Cycle behaviour whose third cycle raises inside `observe` while the
first two cycles behave like Scenario A. -/
def error_at_three_behavior : Nat → CycleBehavior :=
  fun i =>
    if i = 3 then
      { observation_summary := Except.error "boom"
        llm_reply := Except.ok scenario_a_response
        tool_result := "tool ran" }
    else
      { observation_summary := Except.ok "documents summarized"
        llm_reply := Except.ok scenario_a_response
        tool_result := "tool ran" }

/-! ## Basic facts about the embedded operations -/

theorem add_step_steps_eq (e : AgentExecution) (a b : String) (x y z : Option String) :
    (e.add_step a b x y z).steps =
      e.steps ++
        [{ step_number := e.steps.length + 1, step_type := a, content := b,
           tool_used := x, tool_input := y, tool_output := z }] := rfl

theorem add_step_steps_length (e : AgentExecution) (a b : String) (x y z : Option String) :
    (e.add_step a b x y z).steps.length = e.steps.length + 1 := by
  rw [add_step_steps_eq, List.length_append, List.length_singleton]

theorem add_step_total_steps (e : AgentExecution) (a b : String) (x y z : Option String) :
    (e.add_step a b x y z).total_steps = e.steps.length + 1 := by
  show (e.steps ++ [_]).length = e.steps.length + 1
  rw [List.length_append, List.length_singleton]

theorem add_step_status (e : AgentExecution) (a b : String) (x y z : Option String) :
    (e.add_step a b x y z).status = e.status := rfl

theorem add_step_error_message (e : AgentExecution) (a b : String) (x y z : Option String) :
    (e.add_step a b x y z).error_message = e.error_message := rfl

theorem add_step_fraud_analysis (e : AgentExecution) (a b : String) (x y z : Option String) :
    (e.add_step a b x y z).fraud_analysis = e.fraud_analysis := rfl

theorem apply_add_steps_cons (e : AgentExecution) (c : StepCall) (cs : List StepCall) :
    apply_add_steps e (c :: cs) =
      apply_add_steps (e.add_step c.step_type c.content c.tool_used c.tool_input c.tool_output)
        cs := rfl

theorem apply_add_steps_length (calls : List StepCall) :
    ∀ e : AgentExecution, (apply_add_steps e calls).steps.length = e.steps.length + calls.length := by
  induction calls with
  | nil => intro e; rfl
  | cons c cs ih =>
    intro e
    rw [apply_add_steps_cons, ih, add_step_steps_length, List.length_cons]
    omega

theorem apply_add_steps_numbering (calls : List StepCall) :
    ∀ e : AgentExecution,
      e.steps.map (fun st => st.step_number) = List.range' 1 e.steps.length →
      (apply_add_steps e calls).steps.map (fun st => st.step_number) =
        List.range' 1 (apply_add_steps e calls).steps.length := by
  induction calls with
  | nil => intro e h; exact h
  | cons c cs ih =>
    intro e h
    rw [apply_add_steps_cons]
    apply ih
    rw [add_step_steps_eq, List.map_append, h]
    simp [List.range'_concat, Nat.add_comm]

/-- C1: for every investigation run — the execution trace starts empty and is
extended only through `AgentExecution.add_step` — the `step_number` fields of
the recorded steps are exactly `1..N`, contiguous and strictly increasing,
for every sequence of `add_step` calls. -/
theorem steps_sequence_contiguous (execution_id bundle_id : String) (calls : List StepCall) :
    (apply_add_steps (AgentExecution.init execution_id bundle_id) calls).steps.map
        (fun st => st.step_number) = List.range' 1 calls.length := by
  have h := apply_add_steps_numbering calls (AgentExecution.init execution_id bundle_id) rfl
  rw [h, apply_add_steps_length]
  simp [AgentExecution.init]

/-- C10: after every `add_step` call — and hence in every execution trace
built from the fresh execution by a sequence of such calls — `total_steps`
equals the length of the `steps` list. -/
theorem total_steps_matches_length :
    (∀ (e : AgentExecution) (a b : String) (x y z : Option String),
        (e.add_step a b x y z).total_steps = (e.add_step a b x y z).steps.length) ∧
    (∀ (execution_id bundle_id : String) (calls : List StepCall),
        (apply_add_steps (AgentExecution.init execution_id bundle_id) calls).total_steps =
          (apply_add_steps (AgentExecution.init execution_id bundle_id) calls).steps.length) := by
  constructor
  · intro e a b x y z
    rw [add_step_total_steps, add_step_steps_length]
  · intro execution_id bundle_id calls
    have main : ∀ (cs : List StepCall) (e : AgentExecution),
        e.total_steps = e.steps.length →
        (apply_add_steps e cs).total_steps = (apply_add_steps e cs).steps.length := by
      intro cs
      induction cs with
      | nil => intro e h; exact h
      | cons c cs ih =>
        intro e h
        rw [apply_add_steps_cons]
        exact ih _ (by rw [add_step_total_steps, add_step_steps_length])
    exact main calls _ rfl

/-- C5: whenever the reasoning-capability call raises (or times out), `think`
returns the fixed fallback `Reasoning` — confidence `0`, recommended action
the synthesis tool, reasoning type `"fallback"` — and, being total, never
propagates the exception to the loop. -/
theorem think_error_fallback (msg : String) :
    Thinker.think (Except.error msg) =
      { content := "Unable to generate reasoning due to error"
        recommended_action := "synthesize_fraud_evidence"
        confidence := 0
        reasoning_type := "fallback" } := rfl

/-- C6 (the code path at the failing input): a `Reasoning` whose
`recommended_action` is not registered is redirected to
`"synthesize_fraud_evidence"`, but that name is itself absent from
`get_all_tools`, so the lookup raises `KeyError` and `act` returns the
caught-error `Action` with `tool_name = "error"` — the synthesis tool is
never dispatched. -/
theorem unknown_action_hits_keyerror :
    (Actor.act (fun _ => "tool output") 
        { content := "c", recommended_action := "nonexistent_tool",
          confidence := mkRat 1 2, reasoning_type := "investigation" }).tool_name = "error" ∧
    (Actor.act (fun _ => "tool output")
        { content := "c", recommended_action := "nonexistent_tool",
          confidence := mkRat 1 2, reasoning_type := "investigation" }).result =
      "Action failed: " ++ singleQuote ++ "synthesize_fraud_evidence" ++ singleQuote ∧
    "synthesize_fraud_evidence" ∉ get_all_tool_names ∧
    "nonexistent_tool" ∉ get_all_tool_names := by decide

/-! ## Set-semantics insertions (memory collections) -/

theorem add_evidence_fraud_indicators (m : FraudDetectionMemory) (x : String) :
    (m.add_evidence x).fraud_indicators = m.fraud_indicators := by
  unfold FraudDetectionMemory.add_evidence
  split <;> rfl

theorem add_fraud_indicator_evidence (m : FraudDetectionMemory) (x : String) :
    (m.add_fraud_indicator x).evidence = m.evidence := by
  unfold FraudDetectionMemory.add_fraud_indicator
  split <;> rfl

theorem add_evidence_nodup (m : FraudDetectionMemory) (x : String)
    (h : m.evidence.Nodup) : (m.add_evidence x).evidence.Nodup := by
  unfold FraudDetectionMemory.add_evidence
  by_cases hmem : x ∈ m.evidence
  · rw [if_pos hmem]; exact h
  · rw [if_neg hmem]
    refine List.nodup_append.mpr ⟨h, List.nodup_singleton x, ?_⟩
    intro y hy hys
    rw [List.mem_singleton] at hys
    exact hmem (hys ▸ hy)

theorem add_fraud_indicator_nodup (m : FraudDetectionMemory) (x : String)
    (h : m.fraud_indicators.Nodup) : (m.add_fraud_indicator x).fraud_indicators.Nodup := by
  unfold FraudDetectionMemory.add_fraud_indicator
  by_cases hmem : x ∈ m.fraud_indicators
  · rw [if_pos hmem]; exact h
  · rw [if_neg hmem]
    refine List.nodup_append.mpr ⟨h, List.nodup_singleton x, ?_⟩
    intro y hy hys
    rw [List.mem_singleton] at hys
    exact hmem (hys ▸ hy)

theorem add_evidence_mem (m : FraudDetectionMemory) (x : String) :
    x ∈ (m.add_evidence x).evidence := by
  unfold FraudDetectionMemory.add_evidence
  by_cases hmem : x ∈ m.evidence
  · rw [if_pos hmem]; exact hmem
  · rw [if_neg hmem]; simp

theorem add_evidence_idem (m : FraudDetectionMemory) (x : String) :
    (m.add_evidence x).add_evidence x = m.add_evidence x := by
  have h := add_evidence_mem m x
  conv_lhs => rw [FraudDetectionMemory.add_evidence]
  rw [if_pos h]

theorem add_fraud_indicator_mem (m : FraudDetectionMemory) (x : String) :
    x ∈ (m.add_fraud_indicator x).fraud_indicators := by
  unfold FraudDetectionMemory.add_fraud_indicator
  by_cases hmem : x ∈ m.fraud_indicators
  · rw [if_pos hmem]; exact hmem
  · rw [if_neg hmem]; simp

theorem add_fraud_indicator_idem (m : FraudDetectionMemory) (x : String) :
    (m.add_fraud_indicator x).add_fraud_indicator x = m.add_fraud_indicator x := by
  have h := add_fraud_indicator_mem m x
  conv_lhs => rw [FraudDetectionMemory.add_fraud_indicator]
  rw [if_pos h]

theorem apply_inserts_nodup (ops : List MemInsert) :
    ∀ m : FraudDetectionMemory, m.evidence.Nodup → m.fraud_indicators.Nodup →
      (apply_inserts m ops).evidence.Nodup ∧ (apply_inserts m ops).fraud_indicators.Nodup := by
  induction ops with
  | nil => intro m h1 h2; exact ⟨h1, h2⟩
  | cons op ops ih =>
    intro m h1 h2
    cases op with
    | indicator s =>
      exact ih _ (by rw [add_fraud_indicator_evidence]; exact h1) (add_fraud_indicator_nodup m s h2)
    | evidence s =>
      exact ih _ (add_evidence_nodup m s h1) (by rw [add_evidence_fraud_indicators]; exact h2)

/-- C9: `add_evidence` and `add_fraud_indicator` are idempotent set
insertions — a second insertion of the same string is the identity, every
sequence of insertions starting from the fresh memory leaves both
collections duplicate-free, and after inserting the same evidence string
twice it is stored exactly once. -/
theorem evidence_indicator_set_semantics :
    (∀ (m : FraudDetectionMemory) (x : String),
        (m.add_evidence x).add_evidence x = m.add_evidence x ∧
        (m.add_fraud_indicator x).add_fraud_indicator x = m.add_fraud_indicator x) ∧
    (∀ (execution_id bundle_id : String) (ops : List MemInsert),
        (apply_inserts (FraudDetectionMemory.init execution_id bundle_id) ops).evidence.Nodup ∧
        (apply_inserts (FraudDetectionMemory.init execution_id bundle_id)
            ops).fraud_indicators.Nodup) ∧
    (∀ (execution_id bundle_id : String) (ops : List MemInsert) (x : String),
        List.count x
          (((apply_inserts (FraudDetectionMemory.init execution_id bundle_id)
              ops).add_evidence x).add_evidence x).evidence = 1) := by
  refine ⟨fun m x => ⟨add_evidence_idem m x, add_fraud_indicator_idem m x⟩, ?_, ?_⟩
  · intro execution_id bundle_id ops
    exact apply_inserts_nodup ops _ List.nodup_nil List.nodup_nil
  · intro execution_id bundle_id ops x
    rw [add_evidence_idem]
    have hnd : ((apply_inserts (FraudDetectionMemory.init execution_id bundle_id)
        ops).add_evidence x).evidence.Nodup :=
      add_evidence_nodup _ x (apply_inserts_nodup ops _ List.nodup_nil List.nodup_nil).1
    exact List.count_eq_one_of_mem hnd (add_evidence_mem _ x)

/-! ## Confidence parsing and the [0, 1] range -/

theorem parse_line_confidence_bounds (acc : ParseAcc) (line : String)
    (hok : confidence_line_ok line = true)
    (h0 : 0 ≤ acc.confidence) (h1 : acc.confidence ≤ 1) :
    0 ≤ (parseReasoningLine acc line).confidence ∧
      (parseReasoningLine acc line).confidence ≤ 1 := by
  unfold parseReasoningLine
  by_cases hA : pyStartsWith line "REASONING:" = true
  · rw [if_pos hA]; exact ⟨h0, h1⟩
  · rw [if_neg hA]
    by_cases hB : pyStartsWith line "RECOMMENDED_ACTION:" = true
    · rw [if_pos hB]; exact ⟨h0, h1⟩
    · rw [if_neg hB]
      by_cases hC : pyStartsWith line "CONFIDENCE:" = true
      · rw [if_pos hC]
        unfold confidence_line_ok at hok
        rw [hC] at hok
        simp only [Bool.not_true, Bool.false_or, Bool.and_eq_true] at hok
        obtain ⟨hascii, hval⟩ := hok
        cases hpf : pyFloat? (pyStrip (pyReplace line "CONFIDENCE:" "")) with
        | none =>
          simp only [hpf, parsedConfidence]
          exact ⟨by decide, by decide⟩
        | some pv =>
          rw [hpf] at hval
          cases pv with
          | finite v =>
            simp only [confidence_value_ok, Bool.and_eq_true, decide_eq_true_eq] at hval
            simp only [hpf, parsedConfidence]
            exact hval
          | inf neg =>
            simp only [confidence_value_ok] at hval
            exact absurd hval (by decide)
          | nan =>
            simp only [confidence_value_ok] at hval
            exact absurd hval (by decide)
      · rw [if_neg hC]
        by_cases hD : pyStartsWith line "REASONING_TYPE:" = true
        · rw [if_pos hD]; exact ⟨h0, h1⟩
        · rw [if_neg hD]; exact ⟨h0, h1⟩

theorem foldl_parse_confidence_bounds (lines : List String) :
    ∀ acc : ParseAcc, (∀ l ∈ lines, confidence_line_ok l = true) →
      0 ≤ acc.confidence → acc.confidence ≤ 1 →
      0 ≤ (lines.foldl parseReasoningLine acc).confidence ∧
        (lines.foldl parseReasoningLine acc).confidence ≤ 1 := by
  induction lines with
  | nil => intro acc _ h0 h1; exact ⟨h0, h1⟩
  | cons l ls ih =>
    intro acc hall h0 h1
    have hl := hall l (List.mem_cons_self l ls)
    have := parse_line_confidence_bounds acc l hl h0 h1
    exact ih _ (fun x hx => hall x (List.mem_cons_of_mem l hx)) this.1 this.2

/-- C8 counterexample: the response `"CONFIDENCE: 1.5"` parses without any
clamping to confidence `3/2 ∉ [0, 1]`, and `update_confidence` stores that
out-of-range value unchanged in the memory. -/
theorem confidence_unclamped_counterexample :
    (Thinker.parse_reasoning "CONFIDENCE: 1.5").confidence = mkRat 3 2 ∧
    ¬ ((Thinker.parse_reasoning "CONFIDENCE: 1.5").confidence ≤ 1) ∧
    ((FraudDetectionMemory.init "exec-c" "bundle-c").update_confidence
        (Thinker.parse_reasoning "CONFIDENCE: 1.5").confidence).confidence_level = mkRat 3 2 := by
  decide

/-- C8 amended: the stored confidence lies in `[0, 1]` provided every
`CONFIDENCE:` line of the response whose value parses has a value in
`[0, 1]` (missing or non-numeric values fall back to the in-range default
`0.5`); the parser itself never clamps, so an out-of-range parseable value
is stored out of range. -/
theorem confidence_range_amended (s : String) (h : confidence_values_ok s = true) :
    (0 ≤ (Thinker.parse_reasoning s).confidence ∧
      (Thinker.parse_reasoning s).confidence ≤ 1) ∧
    ∀ m : FraudDetectionMemory,
      0 ≤ (m.update_confidence (Thinker.parse_reasoning s).confidence).confidence_level ∧
        (m.update_confidence (Thinker.parse_reasoning s).confidence).confidence_level ≤ 1 := by
  have hall : ∀ l ∈ pySplitChar (pyStrip s) '\n', confidence_line_ok l = true := by
    intro l hl
    unfold confidence_values_ok at h
    rw [List.all_eq_true] at h
    exact h l hl
  have hmain := foldl_parse_confidence_bounds (pySplitChar (pyStrip s) '\n')
    { reasoning_content := ""
      recommended_action := "synthesize_fraud_evidence"
      confidence := mkRat 1 2
      reasoning_type := "investigation" } hall (by decide) (by decide)
  have heq : (Thinker.parse_reasoning s).confidence =
      ((pySplitChar (pyStrip s) '\n').foldl parseReasoningLine
        { reasoning_content := ""
          recommended_action := "synthesize_fraud_evidence"
          confidence := mkRat 1 2
          reasoning_type := "investigation" }).confidence := rfl
  rw [heq]
  exact ⟨hmain, fun m => hmain⟩

/-- C8 amended, witness: the single-line response `"CONFIDENCE: 0.8"`
satisfies the line condition and its parsed confidence lies in `[0, 1]`. -/
theorem confidence_range_amended_witness :
    confidence_values_ok "CONFIDENCE: 0.8" = true ∧
    0 ≤ (Thinker.parse_reasoning "CONFIDENCE: 0.8").confidence ∧
    (Thinker.parse_reasoning "CONFIDENCE: 0.8").confidence ≤ 1 :=
  ⟨by decide, (confidence_range_amended "CONFIDENCE: 0.8" (by decide)).1.1,
    (confidence_range_amended "CONFIDENCE: 0.8" (by decide)).1.2⟩

/-! ## Scenario B (claim C3) -/

/-- C3: when the reasoning capability answers the Scenario B response
(`CONFIDENCE: 0.9`, `REASONING_TYPE: synthesis`) on iteration 1 and the
threshold is the default `0.7`, the response parses to the expected
`Reasoning`, the loop terminates after iteration 1, and the final execution
trace has `total_steps = 3`: one OBSERVATION, one THOUGHT and one ACTION
step. -/
theorem scenario_b_one_iteration_three_steps :
    default_settings.confidence_threshold = mkRat 7 10 ∧
    Thinker.parse_reasoning scenario_b_response =
      { content := "done", recommended_action := "synthesize_fraud_evidence",
        confidence := mkRat 9 10, reasoning_type := "synthesis" } ∧
    loop_iterations default_settings scenario_b_behavior "exec-b" "bundle-b" = 1 ∧
    (analyze_documents default_settings scenario_b_behavior "exec-b" "bundle-b").total_steps = 3 ∧
    (analyze_documents default_settings scenario_b_behavior "exec-b" "bundle-b").steps.map
        (fun st => st.step_type) = ["OBSERVATION", "THOUGHT", "ACTION"] := by
  decide

/-! ## Scenario A (claim C4) -/

/-- C4 counterexample: with the reasoning capability always returning the
unparseable Scenario A text (the call succeeding), the per-cycle `Reasoning`
is the parser default with confidence `0.5` — not the claimed error fallback
with confidence `0.0` — the loop runs all 10 iterations instead of
terminating at iteration 6, and the final risk level is `"MEDIUM"`, not
`"LOW"` (the execution does complete and `fraud_detected` is `false`). -/
theorem scenario_a_counterexample :
    (Thinker.think (Except.ok scenario_a_response)).confidence = mkRat 1 2 ∧
    (Thinker.think (Except.ok scenario_a_response)).confidence ≠ 0 ∧
    (Thinker.think (Except.ok scenario_a_response)).reasoning_type = "investigation" ∧
    loop_iterations default_settings scenario_a_behavior "exec-a" "bundle-a" = 10 ∧
    loop_iterations default_settings scenario_a_behavior "exec-a" "bundle-a" ≠ 6 ∧
    (analyze_documents default_settings scenario_a_behavior "exec-a" "bundle-a").status =
      "completed" ∧
    ((analyze_documents default_settings scenario_a_behavior "exec-a" "bundle-a").fraud_analysis).map
        (fun r => r.risk_level) = some "MEDIUM" ∧
    ((analyze_documents default_settings scenario_a_behavior "exec-a" "bundle-a").fraud_analysis).map
        (fun r => r.risk_level) ≠ some "LOW" ∧
    ((analyze_documents default_settings scenario_a_behavior "exec-a" "bundle-a").fraud_analysis).map
        (fun r => r.fraud_detected) = some false := by
  decide

/-! ## Projection facts about the cycle operations -/

attribute [simp] add_step_steps_length add_step_total_steps add_step_status
attribute [simp] add_step_error_message add_step_fraud_analysis

@[simp] theorem complete_execution_steps (e : AgentExecution) (fa : FraudAnalysisResult) :
    (e.complete_execution fa).steps = e.steps := rfl

@[simp] theorem complete_execution_status (e : AgentExecution) (fa : FraudAnalysisResult) :
    (e.complete_execution fa).status = "completed" := rfl

@[simp] theorem complete_execution_fraud_analysis (e : AgentExecution) (fa : FraudAnalysisResult) :
    (e.complete_execution fa).fraud_analysis = some fa := rfl

@[simp] theorem complete_execution_total_steps (e : AgentExecution) (fa : FraudAnalysisResult) :
    (e.complete_execution fa).total_steps = e.total_steps := rfl

@[simp] theorem fail_execution_steps (e : AgentExecution) (msg : String) :
    (e.fail_execution msg).steps = e.steps := rfl

@[simp] theorem fail_execution_status (e : AgentExecution) (msg : String) :
    (e.fail_execution msg).status = "failed" := rfl

@[simp] theorem fail_execution_error_message (e : AgentExecution) (msg : String) :
    (e.fail_execution msg).error_message = some msg := rfl

@[simp] theorem fail_execution_total_steps (e : AgentExecution) (msg : String) :
    (e.fail_execution msg).total_steps = e.total_steps := rfl

@[simp] theorem fail_execution_fraud_analysis (e : AgentExecution) (msg : String) :
    (e.fail_execution msg).fraud_analysis = e.fraud_analysis := rfl

@[simp] theorem set_iteration_count_iteration_count (m : FraudDetectionMemory) (k : Nat) :
    (m.set_iteration_count k).iteration_count = k := rfl

@[simp] theorem set_iteration_count_agent_execution (m : FraudDetectionMemory) (k : Nat) :
    (m.set_iteration_count k).agent_execution = m.agent_execution := rfl

@[simp] theorem set_iteration_count_confidence_level (m : FraudDetectionMemory) (k : Nat) :
    (m.set_iteration_count k).confidence_level = m.confidence_level := rfl

@[simp] theorem add_observation_iteration_count (m : FraudDetectionMemory) (c : String) :
    (m.add_observation c).iteration_count = m.iteration_count := rfl

@[simp] theorem add_observation_agent_execution (m : FraudDetectionMemory) (c : String) :
    (m.add_observation c).agent_execution =
      m.agent_execution.add_step "OBSERVATION" c none none none := rfl

@[simp] theorem add_observation_confidence_level (m : FraudDetectionMemory) (c : String) :
    (m.add_observation c).confidence_level = m.confidence_level := rfl

@[simp] theorem add_thought_iteration_count (m : FraudDetectionMemory) (c : String) :
    (m.add_thought c).iteration_count = m.iteration_count := rfl

@[simp] theorem add_thought_agent_execution (m : FraudDetectionMemory) (c : String) :
    (m.add_thought c).agent_execution =
      m.agent_execution.add_step "THOUGHT" c none none none := rfl

@[simp] theorem add_thought_confidence_level (m : FraudDetectionMemory) (c : String) :
    (m.add_thought c).confidence_level = m.confidence_level := rfl

@[simp] theorem add_action_iteration_count (m : FraudDetectionMemory) (a b c d : String) :
    (m.add_action a b c d).iteration_count = m.iteration_count := by
  unfold FraudDetectionMemory.add_action FraudDetectionMemory.add_step
  split <;> split <;> rfl

@[simp] theorem add_action_agent_execution (m : FraudDetectionMemory) (a b c d : String) :
    (m.add_action a b c d).agent_execution =
      m.agent_execution.add_step "ACTION" a (some b) (some c) (some d) := by
  unfold FraudDetectionMemory.add_action FraudDetectionMemory.add_step
  split <;> split <;> rfl

@[simp] theorem add_action_confidence_level (m : FraudDetectionMemory) (a b c d : String) :
    (m.add_action a b c d).confidence_level = m.confidence_level := by
  unfold FraudDetectionMemory.add_action FraudDetectionMemory.add_step
  split <;> split <;> rfl

@[simp] theorem update_confidence_confidence_level (m : FraudDetectionMemory) (c : ℚ) :
    (m.update_confidence c).confidence_level = c := rfl

@[simp] theorem update_confidence_iteration_count (m : FraudDetectionMemory) (c : ℚ) :
    (m.update_confidence c).iteration_count = m.iteration_count := rfl

@[simp] theorem update_confidence_agent_execution (m : FraudDetectionMemory) (c : ℚ) :
    (m.update_confidence c).agent_execution = m.agent_execution := rfl

/-! ## Unfolding the loop one cycle at a time -/

theorem react_loop_zero (s : Settings) (beh : Nat → CycleBehavior) (iteration : Nat)
    (mem : FraudDetectionMemory) :
    react_loop s beh 0 iteration mem = LoopResult.completed mem iteration := rfl

theorem react_loop_guard_false (s : Settings) (beh : Nat → CycleBehavior)
    (fuel iteration : Nat) (mem : FraudDetectionMemory)
    (hge : ¬ iteration < s.max_iterations) :
    react_loop s beh (fuel + 1) iteration mem = LoopResult.completed mem iteration := by
  rw [react_loop, if_neg hge]

theorem react_loop_succ_error (s : Settings) (beh : Nat → CycleBehavior)
    (fuel iteration : Nat) (mem : FraudDetectionMemory) (e : String)
    (hlt : iteration < s.max_iterations)
    (hobs : (beh (iteration + 1)).observation_summary = Except.error e) :
    react_loop s beh (fuel + 1) iteration mem =
      LoopResult.errored (mem.set_iteration_count (iteration + 1))
        ("Observation failed: " ++ e) := by
  rw [react_loop, if_pos hlt]
  simp only [hobs]

theorem react_loop_succ_ok (s : Settings) (beh : Nat → CycleBehavior)
    (fuel iteration : Nat) (mem : FraudDetectionMemory) (t : String)
    (hlt : iteration < s.max_iterations)
    (hobs : (beh (iteration + 1)).observation_summary = Except.ok t) :
    react_loop s beh (fuel + 1) iteration mem =
      (let reasoning := Thinker.think (beh (iteration + 1)).llm_reply
       let action := Actor.act (fun _ => (beh (iteration + 1)).tool_result) reasoning
       let memC := ((((mem.set_iteration_count (iteration + 1)).add_observation
           ("Observation " ++ toString (iteration + 1) ++ ": " ++ t)).add_thought
           reasoning.content).add_action ("Executed " ++ action.tool_name) action.tool_name
           reasoning.content action.result).update_confidence reasoning.confidence
       if should_terminate s memC reasoning then LoopResult.completed memC (iteration + 1)
       else react_loop s beh fuel (iteration + 1) memC) := by
  rw [react_loop, if_pos hlt]
  simp only [hobs]

/-! ## The iteration budget (claim C2) -/

/-- The bound claim C2 makes about a loop outcome: the iteration counter and
the recorded iteration count never exceed the budget, and the trace has at
most three steps per allowed cycle. -/
def BudgetOk (s : Settings) : LoopResult → Prop
  | LoopResult.completed m n =>
      n ≤ s.max_iterations ∧ m.iteration_count ≤ s.max_iterations ∧
        m.agent_execution.steps.length ≤ 3 * s.max_iterations
  | LoopResult.errored m _ =>
      m.iteration_count ≤ s.max_iterations ∧
        m.agent_execution.steps.length ≤ 3 * s.max_iterations

theorem react_loop_budget (s : Settings) (beh : Nat → CycleBehavior) :
    ∀ (fuel iteration : Nat) (mem : FraudDetectionMemory),
      iteration ≤ s.max_iterations →
      mem.iteration_count ≤ s.max_iterations →
      mem.agent_execution.steps.length ≤ 3 * iteration →
      BudgetOk s (react_loop s beh fuel iteration mem) := by
  intro fuel
  induction fuel with
  | zero =>
    intro iteration mem h1 h2 h3
    rw [react_loop_zero]
    exact ⟨h1, h2, by omega⟩
  | succ fuel ih =>
    intro iteration mem h1 h2 h3
    by_cases hlt : iteration < s.max_iterations
    · cases hobs : (beh (iteration + 1)).observation_summary with
      | error e =>
        rw [react_loop_succ_error s beh fuel iteration mem e hlt hobs]
        exact ⟨by simp; omega, by simp; omega⟩
      | ok t =>
        rw [react_loop_succ_ok s beh fuel iteration mem t hlt hobs]
        simp only []
        split
        · exact ⟨by omega, by simp; omega, by simp; omega⟩
        · apply ih (iteration + 1)
          · omega
          · simp
            omega
          · simp
            omega
    · rw [react_loop_guard_false s beh fuel iteration mem hlt]
      exact ⟨h1, h2, by omega⟩

/-- C2: for every configured `max_iterations` and every external behaviour,
the loop of `analyze_documents` performs at most `max_iterations`
Observe→Think→Act cycles (each full cycle appends exactly 3 steps, so the
returned trace has at most `3 * max_iterations` steps), and the iteration
count recorded in memory never exceeds `max_iterations`. -/
theorem loop_iteration_budget (s : Settings) (beh : Nat → CycleBehavior)
    (execution_id bundle_id : String) :
    loop_iterations s beh execution_id bundle_id ≤ s.max_iterations ∧
    (loop_final_memory s beh execution_id bundle_id).iteration_count ≤ s.max_iterations ∧
    (analyze_documents s beh execution_id bundle_id).steps.length ≤ 3 * s.max_iterations := by
  have h := react_loop_budget s beh s.max_iterations 0
    (FraudDetectionMemory.init execution_id bundle_id) (Nat.zero_le _) (Nat.zero_le _)
    (Nat.le_refl _)
  cases hres : react_loop s beh s.max_iterations 0
      (FraudDetectionMemory.init execution_id bundle_id) with
  | completed m n =>
    rw [hres] at h
    obtain ⟨ha, hb, hc⟩ := h
    refine ⟨?_, ?_, ?_⟩
    · simp only [loop_iterations]
      rw [hres]
      exact ha
    · simp only [loop_final_memory]
      rw [hres]
      exact hb
    · simp only [analyze_documents]
      rw [hres]
      simpa using hc
  | errored m msg =>
    rw [hres] at h
    obtain ⟨hb, hc⟩ := h
    refine ⟨?_, ?_, ?_⟩
    · simp only [loop_iterations]
      rw [hres]
      exact hb
    · simp only [loop_final_memory]
      rw [hres]
      exact hb
    · simp only [analyze_documents]
      rw [hres]
      simpa using hc

/-! ## Runs in which every response parses to the defaults (claims C4, C7) -/

theorem should_terminate_half_investigation (m : FraudDetectionMemory) (r : Reasoning)
    (hc : r.confidence = mkRat 1 2) (ht : r.reasoning_type = "investigation") :
    should_terminate default_settings m r = decide (10 ≤ m.iteration_count) := by
  unfold should_terminate
  rw [hc, ht]
  have e1 : (decide (default_settings.confidence_threshold ≤ mkRat 1 2)) = false := by decide
  have e2 : (("investigation" == "synthesis") : Bool) = false := by decide
  have e3 : (decide (mkRat 1 2 < mkRat 3 10)) = false := by decide
  have e4 : default_settings.max_iterations = 10 := rfl
  rw [e1, e2, e3, e4]
  simp

theorem generate_final_assessment_half (m : FraudDetectionMemory)
    (h : m.confidence_level = mkRat 1 2) :
    (generate_final_assessment m).risk_level = "MEDIUM" ∧
    (generate_final_assessment m).fraud_detected = false := by
  unfold generate_final_assessment create_fraud_analysis_result pydantic_valid
  rw [h]
  have h8 : ¬ (mkRat 8 10 ≤ mkRat 1 2) := by decide
  have h6 : ¬ (mkRat 6 10 ≤ mkRat 1 2) := by decide
  have h4 : (mkRat 4 10 ≤ mkRat 1 2) := by decide
  have b0 : (decide ((0 : ℚ) ≤ mkRat 1 2)) = true := by decide
  have b1 : (decide ((mkRat 1 2 : ℚ) ≤ 1)) = true := by decide
  have hkw : (fraud_keywords.any fun k =>
      pyContains (pyLower "Synthesis tool not available") (pyLower k)) = false := by decide
  simp only [b0, b1, Bool.and_self, if_true, hkw]
  rw [if_neg h8, if_neg h6, if_pos h4]
  simp

theorem react_loop_unparseable (beh : Nat → CycleBehavior)
    (hobs : ∀ i, ∃ t, (beh i).observation_summary = Except.ok t)
    (hthink : ∀ i, ∃ r, (beh i).llm_reply = Except.ok r ∧
        (Thinker.parse_reasoning r).confidence = mkRat 1 2 ∧
        (Thinker.parse_reasoning r).reasoning_type = "investigation") :
    ∀ (fuel iteration : Nat) (mem : FraudDetectionMemory),
      iteration + fuel = 10 → 0 < fuel →
      ∃ mem2, react_loop default_settings beh fuel iteration mem =
          LoopResult.completed mem2 10 ∧ mem2.confidence_level = mkRat 1 2 := by
  intro fuel
  induction fuel with
  | zero => intro iteration mem h1 h2; omega
  | succ fuel ih =>
    intro iteration mem h1 _
    have hlt : iteration < default_settings.max_iterations := by
      have hms : default_settings.max_iterations = 10 := rfl
      omega
    obtain ⟨t, ht⟩ := hobs (iteration + 1)
    obtain ⟨r, hr, hrc, hrt⟩ := hthink (iteration + 1)
    rw [react_loop_succ_ok default_settings beh fuel iteration mem t hlt ht]
    simp only []
    rw [hr]
    simp only [Thinker.think]
    rw [should_terminate_half_investigation _ _ hrc hrt]
    simp only [update_confidence_iteration_count, add_action_iteration_count,
      add_thought_iteration_count, add_observation_iteration_count,
      set_iteration_count_iteration_count]
    by_cases hfin : 10 ≤ iteration + 1
    · rw [if_pos (decide_eq_true hfin)]
      have h10 : iteration + 1 = 10 := by omega
      rw [h10]
      refine ⟨_, rfl, ?_⟩
      simp [hrc]
    · have hnot : ¬ (decide (10 ≤ iteration + 1) = true) := by
        simp
        omega
      rw [if_neg hnot]
      exact ih (iteration + 1) _ (by omega) (by omega)

/-- C4 amended: if the reasoning capability always returns text in which no
`CONFIDENCE:` or `REASONING_TYPE:` field is recognized — so each cycle's
parsed `Reasoning` carries the parser defaults, confidence `0.5` and type
`"investigation"`, not the error fallback's `0.0` — then under the default
settings the loop terminates at iteration `max_iterations = 10` (not 6), and
the final execution has status `"completed"`, risk_level `"MEDIUM"` (not
`"LOW"`), and `fraud_detected = false`. -/
theorem scenario_unparseable_amended (beh : Nat → CycleBehavior)
    (execution_id bundle_id : String)
    (hobs : ∀ i, ∃ t, (beh i).observation_summary = Except.ok t)
    (hthink : ∀ i, ∃ r, (beh i).llm_reply = Except.ok r ∧
        (Thinker.parse_reasoning r).confidence = mkRat 1 2 ∧
        (Thinker.parse_reasoning r).reasoning_type = "investigation") :
    loop_iterations default_settings beh execution_id bundle_id = 10 ∧
    (analyze_documents default_settings beh execution_id bundle_id).status = "completed" ∧
    ((analyze_documents default_settings beh execution_id bundle_id).fraud_analysis).map
        (fun fa => fa.risk_level) = some "MEDIUM" ∧
    ((analyze_documents default_settings beh execution_id bundle_id).fraud_analysis).map
        (fun fa => fa.fraud_detected) = some false := by
  obtain ⟨mem2, heq, hconf⟩ := react_loop_unparseable beh hobs hthink
    default_settings.max_iterations 0 (FraudDetectionMemory.init execution_id bundle_id)
    rfl (by decide)
  have hg := generate_final_assessment_half mem2 hconf
  refine ⟨?_, ?_, ?_, ?_⟩
  · simp only [loop_iterations]
    rw [heq]
  · simp only [analyze_documents]
    rw [heq]
    simp
  · simp only [analyze_documents]
    rw [heq]
    simp [hg.1]
  · simp only [analyze_documents]
    rw [heq]
    simp [hg.2]

/-- C4 amended, witness: the concrete Scenario A behaviour (every response
is the fixed unparseable text) instantiates the amended claim. -/
theorem scenario_unparseable_amended_witness :
    loop_iterations default_settings scenario_a_behavior "exec-a2" "bundle-a2" = 10 ∧
    (analyze_documents default_settings scenario_a_behavior "exec-a2" "bundle-a2").status =
      "completed" ∧
    ((analyze_documents default_settings scenario_a_behavior "exec-a2"
        "bundle-a2").fraud_analysis).map (fun fa => fa.risk_level) = some "MEDIUM" ∧
    ((analyze_documents default_settings scenario_a_behavior "exec-a2"
        "bundle-a2").fraud_analysis).map (fun fa => fa.fraud_detected) = some false :=
  scenario_unparseable_amended scenario_a_behavior "exec-a2" "bundle-a2"
    (fun _ => ⟨"two documents summarized", rfl⟩)
    (fun _ => ⟨scenario_a_response, rfl, by decide, by decide⟩)

theorem react_loop_error_reach (beh : Nat → CycleBehavior) (k : Nat) (msg : String)
    (hk10 : k ≤ 10)
    (hobs_before : ∀ i, i < k → ∃ t, (beh i).observation_summary = Except.ok t)
    (hobs_k : (beh k).observation_summary = Except.error msg)
    (hthink : ∀ i, i < k → ∃ r, (beh i).llm_reply = Except.ok r ∧
        (Thinker.parse_reasoning r).confidence = mkRat 1 2 ∧
        (Thinker.parse_reasoning r).reasoning_type = "investigation") :
    ∀ (fuel iteration : Nat) (mem : FraudDetectionMemory),
      iteration + fuel = 10 → iteration < k →
      mem.agent_execution.total_steps = mem.agent_execution.steps.length →
      ∃ mem2, react_loop default_settings beh fuel iteration mem =
          LoopResult.errored mem2 ("Observation failed: " ++ msg) ∧
        mem2.agent_execution.steps.length =
          mem.agent_execution.steps.length + 3 * (k - 1 - iteration) ∧
        mem2.agent_execution.total_steps = mem2.agent_execution.steps.length ∧
        mem2.agent_execution.status = mem.agent_execution.status ∧
        mem2.agent_execution.error_message = mem.agent_execution.error_message ∧
        mem2.agent_execution.fraud_analysis = mem.agent_execution.fraud_analysis := by
  intro fuel
  induction fuel with
  | zero => intro iteration mem h1 h2 _; omega
  | succ fuel ih =>
    intro iteration mem h1 h2 h3
    have hlt : iteration < default_settings.max_iterations := by
      have hms : default_settings.max_iterations = 10 := rfl
      omega
    by_cases hik : iteration + 1 = k
    · rw [react_loop_succ_error default_settings beh fuel iteration mem msg hlt
        (by rw [hik]; exact hobs_k)]
      refine ⟨_, rfl, ?_, ?_, rfl, rfl, rfl⟩
      · simp only [set_iteration_count_agent_execution]
        omega
      · simpa using h3
    · have hi1k : iteration + 1 < k := by omega
      obtain ⟨t, ht⟩ := hobs_before (iteration + 1) hi1k
      obtain ⟨r, hr, hrc, hrt⟩ := hthink (iteration + 1) hi1k
      rw [react_loop_succ_ok default_settings beh fuel iteration mem t hlt ht]
      simp only []
      rw [hr]
      simp only [Thinker.think]
      rw [should_terminate_half_investigation _ _ hrc hrt]
      simp only [update_confidence_iteration_count, add_action_iteration_count,
        add_thought_iteration_count, add_observation_iteration_count,
        set_iteration_count_iteration_count]
      have hnot : ¬ (decide (10 ≤ iteration + 1) = true) := by
        simp
        omega
      rw [if_neg hnot]
      obtain ⟨mem2, heq, hlen, htot, hstat, herr, hfa⟩ :=
        ih (iteration + 1)
          (((((mem.set_iteration_count (iteration + 1)).add_observation
              ("Observation " ++ toString (iteration + 1) ++ ": " ++ t)).add_thought
              (Thinker.parse_reasoning r).content).add_action
              ("Executed " ++ (Actor.act (fun _ => (beh (iteration + 1)).tool_result)
                  (Thinker.parse_reasoning r)).tool_name)
              (Actor.act (fun _ => (beh (iteration + 1)).tool_result)
                  (Thinker.parse_reasoning r)).tool_name
              (Thinker.parse_reasoning r).content
              (Actor.act (fun _ => (beh (iteration + 1)).tool_result)
                  (Thinker.parse_reasoning r)).result).update_confidence
            (Thinker.parse_reasoning r).confidence)
          (by omega) hi1k (by simp)
      refine ⟨mem2, heq, ?_, htot, ?_, ?_, ?_⟩
      · rw [hlen]
        simp
        omega
      · rw [hstat]
        simp
      · rw [herr]
        simp
      · rw [hfa]
        simp

/-- C7: if `observe` raises inside cycle `k` (and the earlier cycles parse to
the non-terminating defaults so the loop reaches cycle `k`),
`analyze_documents` returns the execution with status `"failed"`, the
`AgentExecutionError` text attached as `error_message`, no final assessment,
and the partial trace built so far — all `3 * (k - 1)` steps appended before
the error — still present, never discarded. -/
theorem loop_error_partial_state (k : Nat) (msg : String) (beh : Nat → CycleBehavior)
    (execution_id bundle_id : String) (hk1 : 1 ≤ k) (hk10 : k ≤ 10)
    (hobs_before : ∀ i, i < k → ∃ t, (beh i).observation_summary = Except.ok t)
    (hobs_k : (beh k).observation_summary = Except.error msg)
    (hthink : ∀ i, i < k → ∃ r, (beh i).llm_reply = Except.ok r ∧
        (Thinker.parse_reasoning r).confidence = mkRat 1 2 ∧
        (Thinker.parse_reasoning r).reasoning_type = "investigation") :
    (analyze_documents default_settings beh execution_id bundle_id).status = "failed" ∧
    (analyze_documents default_settings beh execution_id bundle_id).error_message =
      some ("Observation failed: " ++ msg) ∧
    (analyze_documents default_settings beh execution_id bundle_id).steps.length =
      3 * (k - 1) ∧
    (analyze_documents default_settings beh execution_id bundle_id).total_steps =
      3 * (k - 1) ∧
    (analyze_documents default_settings beh execution_id bundle_id).fraud_analysis = none := by
  obtain ⟨mem2, heq, hlen, htot, hstat, herr, hfa⟩ :=
    react_loop_error_reach beh k msg hk10 hobs_before hobs_k hthink
      default_settings.max_iterations 0 (FraudDetectionMemory.init execution_id bundle_id)
      rfl (by omega) rfl
  have hlen0 : mem2.agent_execution.steps.length = 3 * (k - 1) := by
    rw [hlen]
    simp [FraudDetectionMemory.init, AgentExecution.init]
  refine ⟨?_, ?_, ?_, ?_, ?_⟩
  · simp only [analyze_documents]
    rw [heq]
    simp
  · simp only [analyze_documents]
    rw [heq]
    simp
  · simp only [analyze_documents]
    rw [heq]
    simpa using hlen0
  · simp only [analyze_documents]
    rw [heq]
    simp only [fail_execution_total_steps]
    rw [htot]
    simpa using hlen0
  · simp only [analyze_documents]
    rw [heq]
    simp only [fail_execution_fraud_analysis]
    rw [hfa]
    simp [FraudDetectionMemory.init, AgentExecution.init]

/-- C7 witness: the behaviour that raises in `observe` on cycle 3 yields a
failed execution with the first two cycles' 6 steps preserved. -/
theorem loop_error_partial_state_witness :
    (analyze_documents default_settings error_at_three_behavior "exec-e" "bundle-e").status =
      "failed" ∧
    (analyze_documents default_settings error_at_three_behavior "exec-e"
        "bundle-e").error_message = some ("Observation failed: " ++ "boom") ∧
    (analyze_documents default_settings error_at_three_behavior "exec-e"
        "bundle-e").steps.length = 3 * (3 - 1) ∧
    (analyze_documents default_settings error_at_three_behavior "exec-e"
        "bundle-e").total_steps = 3 * (3 - 1) ∧
    (analyze_documents default_settings error_at_three_behavior "exec-e"
        "bundle-e").fraud_analysis = none :=
  loop_error_partial_state 3 "boom" error_at_three_behavior "exec-e" "bundle-e"
    (by decide) (by decide)
    (fun i hi => ⟨"documents summarized", by
      unfold error_at_three_behavior
      rw [if_neg (by omega : ¬ i = 3)]⟩)
    rfl
    (fun i hi => ⟨scenario_a_response, by
      unfold error_at_three_behavior
      split <;> rfl, by decide, by decide⟩)
